import Mathlib

/-!
Verification development for the supertonic_tts plugin (src/logic.py).

Text is modelled as `List Char`. The Python string operations used by
`generate_tts` are given explicit executable models. External collaborators
(the supertonic TTS engine, the ffmpeg binary, the file system, unicodedata
NFC normalization) are modelled as oracle parameters collected in `Collab`:
the plugin treats them as opaque, so each is an arbitrary function/outcome.

Floats are modelled as `ℚ`; the decimal boundary constants 0.7 and 2.0 are
exact in this model. The `latency`/`duration` display rounding applied at
the JSON boundary (`round`, `int(round(...))` on IEEE floats) is not
modelled: the success payload carries the raw duration value.

Logging calls (`self.P.logger....`) are side effects with no influence on
control flow or results; they are not modelled.
-/

namespace SupertonicTTS

/-- Python ASCII whitespace, as recognised by `str.strip()` with no argument
(the Unicode whitespace code points are out of this model). -/
def pyIsSpace (c : Char) : Bool :=
  c = ' ' || c = '\t' || c = '\n' || c = '\r' || c = Char.ofNat 11 || c = Char.ofNat 12

/-- Drop characters satisfying `p` from both ends of a list. -/
def stripEnds (p : Char → Bool) (s : List Char) : List Char :=
  ((s.dropWhile p).reverse.dropWhile p).reverse

/-- Python `s.strip()`. -/
def pyStrip (s : List Char) : List Char := stripEnds pyIsSpace s

/-- Python `s.strip(chars)`: drop any of the given characters from both ends. -/
def pyStripOf (cs : List Char) (s : List Char) : List Char :=
  stripEnds (fun c => cs.contains c) s

/-- Python `s.lower()` (ASCII case folding; the messages this is applied to
are ASCII in the relevant parts). -/
def lowerL (s : List Char) : List Char := s.map Char.toLower

/-- `p` is a leading segment of `s`. -/
def hasPrefixL : List Char → List Char → Bool
  | [], _ => true
  | _ :: _, [] => false
  | p :: ps, c :: cs => p = c && hasPrefixL ps cs

/-- Python `pat in s`: substring containment. -/
def hasSubstr (pat : List Char) : List Char → Bool
  | [] => hasPrefixL pat []
  | c :: rest => hasPrefixL pat (c :: rest) || hasSubstr pat rest

/-- Helper for the bracket regular-expression model: the characters up to the
first `]`, failing on end of input or a newline (`.` does not match `\n`). -/
def bracketInner : List Char → Option (List Char)
  | [] => none
  | c :: rest =>
    if c = ']' then some []
    else if c = '\n' then none
    else (bracketInner rest).map (fun g => c :: g)

/-- Model of Python `re.search` with the pattern bracket-open, lazy dot-star
as group 1, bracket-close (src/logic.py line 224): the capture group of the
leftmost match, i.e. for the first `[` that is followed by a `]` with no
newline in between, the characters between them (the shortest such run).
Returns `none` when no match exists. -/
def bracketScan : List Char → Option (List Char)
  | [] => none
  | c :: rest =>
    if c = '[' then
      match bracketInner rest with
      | some g => some g
      | none => bracketScan rest
    else bracketScan rest

/-- Python `s.split(',')`: the fields between commas, keeping empty fields;
on the empty string it yields one empty field. -/
def splitComma : List Char → List (List Char)
  | [] => [[]]
  | c :: rest =>
    if c = ',' then [] :: splitComma rest
    else
      match splitComma rest with
      | [] => [[c]]
      | g :: gs => (c :: g) :: gs

/-- The single-quote character (U+0027). -/
def squote : Char := Char.ofNat 39

/-- The double-quote character (U+0022). -/
def dquote : Char := Char.ofNat 34

/-- src/logic.py line 227: the reported character list, split on commas, each
entry stripped of whitespace, then of single quotes, then of double quotes. -/
def badCharsOf (g : List Char) : List (List Char) :=
  (splitComma g).map (fun c => pyStripOf [dquote] (pyStripOf [squote] (pyStrip c)))

/-- Helper for the replace-with-empty model: scan the text left to right;
`skip` counts characters of a previously matched occurrence still to be
dropped. At `skip = 0`, a position where the (nonempty) pattern is a leading
segment starts a match: the character is dropped and the remaining
`pat.length - 1` matched characters are skipped, giving the leftmost
non-overlapping occurrence semantics of Python `str.replace`. -/
def delOccAux (pat : List Char) : List Char → Nat → List Char
  | [], _ => []
  | _ :: rest, skip + 1 => delOccAux pat rest skip
  | c :: rest, 0 =>
    if pat ≠ [] ∧ hasPrefixL pat (c :: rest) then
      delOccAux pat rest (pat.length - 1)
    else
      c :: delOccAux pat rest 0

/-- Python `text.replace(pat, two-quotes)`: delete the leftmost
non-overlapping occurrences of `pat`; an empty pattern leaves `text`
unchanged. -/
def delOcc (pat : List Char) (s : List Char) : List Char := delOccAux pat s 0

/-- src/logic.py lines 229-230: remove each reported bad character from the
text in turn. -/
def removeBadChars (bad : List (List Char)) (text : List Char) : List Char :=
  bad.foldl (fun t p => delOcc p t) text

/-- The marker searched for (case-insensitively) in a ValueError message,
src/logic.py line 223. -/
def unsupportedMark : List Char := "unsupported character".toList

/-- src/logic.py line 223: the lowered message contains the marker. -/
def isUnsupportedMsg (msg : List Char) : Bool := hasSubstr unsupportedMark (lowerL msg)

/-- Outcome of one call to the external engine `synthesize`: a waveform with
its reported duration, a raised `ValueError`, or any other raised exception. -/
inductive SynthOut where
  | ok (dur : ℚ)
  | valueErr (msg : List Char)
  | engineErr (msg : List Char)
deriving DecidableEq

/-- Outcome of the ffmpeg post-processing step: process succeeded and the
temporary file exists, process succeeded but the file is missing, or the
subprocess call raised. -/
inductive FfmpegOut where
  | ok
  | okNoTemp
  | fail (msg : List Char)
deriving DecidableEq

/-- The JSON payload returned by `generate_tts`: an error dict carrying
`message`, or a success dict carrying the url and the (raw) duration. -/
inductive Payload where
  | error (message : List Char)
  | success (url : List Char) (dur : ℚ)
deriving DecidableEq

/-- Trace events: the collaborator calls `generate_tts` makes. -/
inductive Ev where
  | engineInit
  | synthCall (text : List Char) (speed : ℚ)
  | ffmpegCall (speed : ℚ)
deriving DecidableEq

/-- The external collaborators of `generate_tts`, as oracles. `σ` is the
opaque type of engine voice-style objects. -/
structure Collab (σ : Type) where
  /-- `unicodedata.normalize` applied at src/logic.py line 177. -/
  nfc : List Char → List Char
  /-- whether `_get_engine` yields an engine (`True`) or `None`. -/
  engineOk : Bool
  /-- the cached `self.voices` list. -/
  voices : List (List Char)
  /-- `engine.get_voice_style`: a style object, or a raised exception. -/
  getStyle : List Char → Except (List Char) σ
  /-- `engine.synthesize` on a text, style and native speed. -/
  synth : List Char → Option σ → ℚ → SynthOut
  /-- `engine.save_audio` and directory creation: `none` on success,
  `some msg` when an exception is raised. -/
  saveErr : Option (List Char)
  /-- outcome of the ffmpeg invocation, when one is made. -/
  ffmpeg : FfmpegOut
  /-- the url built from the package name and the random file name. -/
  url : List Char

def max_retries : Nat := 3

/-- Result of the retry loop: `break` with a waveform and its duration (and
the text that succeeded), an exception escaping the loop, or the loop
running out of iterations with `wav` still `None`. -/
inductive LoopOut where
  | got (dur : ℚ) (text : List Char)
  | raised (msg : List Char)
  | fellThrough
deriving DecidableEq

/-- Error messages of src/logic.py (lines 173, 181, 232, 237, 280). -/
def emptyInputMsg : List Char := "입력 텍스트가 비어있습니다.".toList

def initFailMsg : List Char := "TTS 엔진 초기화에 실패했습니다.".toList

def emptyAfterStripMsg : List Char := "지원하지 않는 문자를 제거한 후 텍스트가 비어버렸습니다.".toList

def noWavMsg : List Char := "음성 생성 결과가 비어있습니다.".toList

def genFailPrefix : List Char := "생성 실패: ".toList

/-- The payload produced by the outer exception handler (line 280). -/
def genFail (msg : List Char) : Payload := .error (genFailPrefix ++ msg)

def defaultVoiceM1 : List Char := "M1".toList

/-- src/logic.py line 197: the requested voice if cached, else the first
cached voice, else the literal name M1. -/
def voiceNameOf (voices : List (List Char)) (voice : List Char) : List Char :=
  if voice ∈ voices then voice else voices.head?.getD defaultVoiceM1

/-- src/logic.py lines 199-203: fetch the voice style; on an exception fall
back to the first cached voice (a second fetch, whose exception propagates),
or to `None` when the voice list is empty. -/
def styleFetch (C : Collab σ) (voice_name : List Char) : Except (List Char) (Option σ) :=
  match C.getStyle voice_name with
  | .ok s => .ok (some s)
  | .error _ =>
    match C.voices.head? with
    | none => .ok none
    | some v0 =>
      match C.getStyle v0 with
      | .ok s => .ok (some s)
      | .error msg => .error msg

/-- src/logic.py lines 189-192: the speed passed to the engine. -/
def nativeSpeedOf (speed : ℚ) : ℚ :=
  if speed < 0.7 ∨ speed > 2.0 then 1.0 else speed

/-- src/logic.py lines 189-192: whether ffmpeg post-processing is used. -/
def useFfmpegFor (speed : ℚ) : Bool :=
  decide (speed < 0.7 ∨ speed > 2.0)

/-- The retry loop of src/logic.py lines 210-234, one list entry per attempt
index (`for attempt in range(max_retries)`). Returns the outcome and the
`synthesize` calls made. On a `ValueError` whose message signals unsupported
characters, while `attempt < max_retries - 1` and the message carries a
bracketed character list, those characters are removed and the loop
continues — unless the stripped text is blank, in which case a fresh
`ValueError` is raised; any other exception (re-)raised escapes the loop. -/
def synthAttempts (C : Collab σ) (style : Option σ) (native_speed : ℚ) :
    List Nat → List Char → LoopOut × List Ev
  | [], _ => (.fellThrough, [])
  | attempt :: restAttempts, text =>
    match C.synth text style native_speed with
    | .ok d => (.got d text, [.synthCall text native_speed])
    | .engineErr msg => (.raised msg, [.synthCall text native_speed])
    | .valueErr msg =>
      if isUnsupportedMsg msg ∧ attempt < max_retries - 1 then
        match bracketScan msg with
        | some g =>
          let text2 := removeBadChars (badCharsOf g) text
          if pyStrip text2 = [] then
            (.raised emptyAfterStripMsg, [.synthCall text native_speed])
          else
            let r := synthAttempts C style native_speed restAttempts text2
            (r.1, .synthCall text native_speed :: r.2)
        | none => (.raised msg, [.synthCall text native_speed])
      else (.raised msg, [.synthCall text native_speed])

/-- src/logic.py lines 236-276: what follows the retry loop. A raised
exception reaches the outer handler (line 277) and becomes an error payload;
a `None` waveform raises (lines 236-238); otherwise the audio is saved
(a raised exception again reaching the outer handler), ffmpeg post-processing
runs when requested — its success divides the duration by the target speed,
its failure is logged and swallowed — and the success payload is returned. -/
def afterLoop (C : Collab σ) (speed : ℚ) : LoopOut × List Ev → Payload × List Ev
  | (.raised msg, evs) => (genFail msg, .engineInit :: evs)
  | (.fellThrough, evs) => (genFail noWavMsg, .engineInit :: evs)
  | (.got d _, evs) =>
    match C.saveErr with
    | some msg => (genFail msg, .engineInit :: evs)
    | none =>
      if useFfmpegFor speed then
        match C.ffmpeg with
        | .ok =>
          (.success C.url (d / speed), .engineInit :: (evs ++ [.ffmpegCall speed]))
        | .okNoTemp =>
          (.success C.url d, .engineInit :: (evs ++ [.ffmpegCall speed]))
        | .fail _ =>
          (.success C.url d, .engineInit :: (evs ++ [.ffmpegCall speed]))
      else (.success C.url d, .engineInit :: evs)

/-- Model of `generate_tts` (src/logic.py lines 156-280): blank-input guard,
NFC normalization, lazy engine, speed-range branching, voice fallback, the
retry loop, and the processing after the loop (`afterLoop` above). Returns
the JSON payload and the trace of collaborator calls. The source rebinds
`text = unicodedata.normalize(NFC, text)` at line 177, before the engine
check; both are pure here, so `C.nfc text` is applied where the text is
next used, at the retry-loop call. -/
def generate_tts (C : Collab σ) (text voice : List Char) (speed : ℚ) :
    Payload × List Ev :=
  if text = [] ∨ pyStrip text = [] then (.error emptyInputMsg, [])
  else if C.engineOk = false then (.error initFailMsg, [.engineInit])
  else
    match styleFetch C (voiceNameOf C.voices voice) with
    | .error msg => (genFail msg, [.engineInit])
    | .ok style =>
      afterLoop C speed
        (synthAttempts C style (nativeSpeedOf speed) (List.range max_retries) (C.nfc text))

/-- The instance state touched by `_get_engine`: the lazily created engine
handle and the cached voice names. `α` is the opaque engine type. -/
structure EngineState (α : Type) where
  tts : Option α
  voices : List (List Char)
deriving DecidableEq

/-- Model of `_get_engine` (src/logic.py lines 141-154). `initRes` is the
outcome of constructing the external TTS object and reading its voice-style
names: `some (engine, names)` on success, `none` when it raises. -/
def getEngine (initRes : Option (α × List (List Char))) (st : EngineState α) :
    Option α × EngineState α :=
  match st.tts with
  | some e => (some e, st)
  | none =>
    match initRes with
    | some (e, vs) => (some e, { tts := some e, voices := vs })
    | none => (none, st)

/-- An AJAX response: the response of one of the six handled branches
(opaque, of type `ρ` — each branch delegates wholly to collaborators), or
the unknown-sub-command error payload. -/
inductive AjaxResp (ρ : Type) where
  | branch (r : ρ)
  | unknown (message : List Char)
deriving DecidableEq

/-- The six branch responses of `process_ajax`, abstracted. -/
structure AjaxEnv (ρ : Type) where
  hGenerate : ρ
  hGetVoices : ρ
  hGetStatus : ρ
  hGetModelConfig : ρ
  hGetFile : ρ
  hLog : ρ

/-- Model of the dispatch of `process_ajax` (src/logic.py lines 282-364) as
written, with the stray tokens at line 335 removed: that line holds an
unmatched closing brace-parenthesis pair, a Python syntax error under which
the module does not import at all (see the C7 result). -/
def process_ajax (E : AjaxEnv ρ) (sub : List Char) : AjaxResp ρ :=
  if sub = "generate".toList then .branch E.hGenerate
  else if sub = "get_voices".toList then .branch E.hGetVoices
  else if sub = "get_status".toList then .branch E.hGetStatus
  else if sub = "get_model_config".toList then .branch E.hGetModelConfig
  else if sub = "get_file".toList then .branch E.hGetFile
  else if sub = "log".toList then .branch E.hLog
  else .unknown ("Unknown sub-command: ".toList ++ sub)

/-- Recognise a `synthesize` call in a trace. -/
def isSynthEv : Ev → Bool
  | .synthCall _ _ => true
  | _ => false

/-- The number of `synthesize` calls recorded in a trace. -/
def synthCallCount (evs : List Ev) : Nat := (evs.filter isSynthEv).length

/-! ### Concrete collaborator instances used in closed theorems -/

/-- Collaborators where synthesis succeeds at once with duration 2 and the
ffmpeg invocation raises. -/
def collabFfmpegFail : Collab Unit where
  nfc := id
  engineOk := true
  voices := ["M1".toList]
  getStyle := fun _ => .ok ()
  synth := fun _ _ _ => .ok 2
  saveErr := none
  ffmpeg := .fail "boom".toList
  url := "/u".toList

/-- Collaborators where synthesis succeeds at once with duration 2 and the
ffmpeg invocation succeeds. -/
def collabFfmpegOk : Collab Unit where
  nfc := id
  engineOk := true
  voices := ["M1".toList]
  getStyle := fun _ => .ok ()
  synth := fun _ _ _ => .ok 2
  saveErr := none
  ffmpeg := .ok
  url := "/u".toList

/-- Collaborators whose engine rejects every text with an
unsupported-character ValueError naming the first letter of the text:
three successive rejections with three different messages. -/
def collabRetryChain : Collab Unit where
  nfc := id
  engineOk := true
  voices := []
  getStyle := fun _ => .ok ()
  synth := fun t _ _ =>
    if t = "abc".toList then .valueErr "unsupported character: [a]".toList
    else if t = "bc".toList then .valueErr "unsupported character: [b]".toList
    else .valueErr "unsupported character: [c]".toList
  saveErr := none
  ffmpeg := .ok
  url := "/u".toList

/-- Collaborators whose engine rejects with a ValueError that does not
signal unsupported characters. -/
def collabValueErrPlain : Collab Unit where
  nfc := id
  engineOk := true
  voices := []
  getStyle := fun _ => .ok ()
  synth := fun _ _ _ => .valueErr "plain failure".toList
  saveErr := none
  ffmpeg := .ok
  url := "/u".toList

/-- Collaborators whose engine raises a non-ValueError exception. -/
def collabEngineErr : Collab Unit where
  nfc := id
  engineOk := true
  voices := []
  getStyle := fun _ => .ok ()
  synth := fun _ _ _ => .engineErr "engine crashed".toList
  saveErr := none
  ffmpeg := .ok
  url := "/u".toList

/-- Collaborators whose engine rejects the text ab reporting both its
characters as unsupported, so that stripping empties the text. -/
def collabUnsupAll : Collab Unit where
  nfc := id
  engineOk := true
  voices := []
  getStyle := fun _ => .ok ()
  synth := fun t _ _ =>
    if t = "ab".toList then .valueErr "unsupported character: [a,b]".toList
    else .ok 1
  saveErr := none
  ffmpeg := .ok
  url := "/u".toList

/-- Collaborators with an empty voice list whose style fetch always raises. -/
def collabNoVoices : Collab Unit where
  nfc := id
  engineOk := true
  voices := []
  getStyle := fun _ => .error "style missing".toList
  synth := fun _ _ _ => .ok 3
  saveErr := none
  ffmpeg := .ok
  url := "/u".toList

/-- Collaborators with one cached voice A whose style fetch succeeds. -/
def collabVoicesA : Collab Unit where
  nfc := id
  engineOk := true
  voices := ["A".toList]
  getStyle := fun _ => .ok ()
  synth := fun _ _ _ => .ok 2
  saveErr := none
  ffmpeg := .okNoTemp
  url := "/u".toList

/-- A concrete AJAX environment over natural-number responses. -/
def ajaxEnvNat : AjaxEnv Nat where
  hGenerate := 1
  hGetVoices := 2
  hGetStatus := 3
  hGetModelConfig := 4
  hGetFile := 5
  hLog := 6

/-! ### Helper lemmas -/

lemma pyStrip_nil : pyStrip [] = [] := rfl

lemma blank_guard_false {text : List Char} (h : pyStrip text ≠ []) :
    ¬(text = [] ∨ pyStrip text = []) := by
  rintro (he | hs)
  · exact h (he ▸ pyStrip_nil)
  · exact h hs

lemma range_max_retries : List.range max_retries = [0, 1, 2] := by decide

lemma synthAttempts_ok {C : Collab σ} {style : Option σ} {ns : ℚ} {text : List Char}
    {d : ℚ} (a : Nat) (rest : List Nat) (h : C.synth text style ns = .ok d) :
    synthAttempts C style ns (a :: rest) text = (.got d text, [.synthCall text ns]) := by
  simp only [synthAttempts, h]

lemma synthAttempts_engineErr {C : Collab σ} {style : Option σ} {ns : ℚ}
    {text m : List Char} (a : Nat) (rest : List Nat)
    (h : C.synth text style ns = .engineErr m) :
    synthAttempts C style ns (a :: rest) text = (.raised m, [.synthCall text ns]) := by
  simp only [synthAttempts, h]

lemma synthAttempts_notUnsupported {C : Collab σ} {style : Option σ} {ns : ℚ}
    {text m : List Char} (a : Nat) (rest : List Nat)
    (h : C.synth text style ns = .valueErr m) (hu : isUnsupportedMsg m = false) :
    synthAttempts C style ns (a :: rest) text = (.raised m, [.synthCall text ns]) := by
  simp only [synthAttempts, h, hu]
  simp

lemma synthAttempts_lastAttempt {C : Collab σ} {style : Option σ} {ns : ℚ}
    {text m : List Char} (a : Nat) (rest : List Nat)
    (h : C.synth text style ns = .valueErr m) (ha : ¬ a < max_retries - 1) :
    synthAttempts C style ns (a :: rest) text = (.raised m, [.synthCall text ns]) := by
  simp only [synthAttempts, h]
  rw [if_neg (by rintro ⟨-, hlt⟩; exact ha hlt)]

lemma synthAttempts_noBracket {C : Collab σ} {style : Option σ} {ns : ℚ}
    {text m : List Char} (a : Nat) (rest : List Nat)
    (h : C.synth text style ns = .valueErr m) (hu : isUnsupportedMsg m = true)
    (ha : a < max_retries - 1) (hb : bracketScan m = none) :
    synthAttempts C style ns (a :: rest) text = (.raised m, [.synthCall text ns]) := by
  simp only [synthAttempts, h]
  rw [if_pos ⟨hu, ha⟩, hb]

lemma synthAttempts_emptyAfterStrip {C : Collab σ} {style : Option σ} {ns : ℚ}
    {text m g : List Char} (a : Nat) (rest : List Nat)
    (h : C.synth text style ns = .valueErr m) (hu : isUnsupportedMsg m = true)
    (ha : a < max_retries - 1) (hb : bracketScan m = some g)
    (he : pyStrip (removeBadChars (badCharsOf g) text) = []) :
    synthAttempts C style ns (a :: rest) text =
      (.raised emptyAfterStripMsg, [.synthCall text ns]) := by
  simp only [synthAttempts, h]
  rw [if_pos ⟨hu, ha⟩, hb]
  simp only [he]
  simp

lemma synthAttempts_retry {C : Collab σ} {style : Option σ} {ns : ℚ}
    {text m g : List Char} (a : Nat) (rest : List Nat)
    (h : C.synth text style ns = .valueErr m) (hu : isUnsupportedMsg m = true)
    (ha : a < max_retries - 1) (hb : bracketScan m = some g)
    (hne : pyStrip (removeBadChars (badCharsOf g) text) ≠ []) :
    synthAttempts C style ns (a :: rest) text =
      ((synthAttempts C style ns rest (removeBadChars (badCharsOf g) text)).1,
        .synthCall text ns ::
          (synthAttempts C style ns rest (removeBadChars (badCharsOf g) text)).2) := by
  simp only [synthAttempts, h]
  rw [if_pos ⟨hu, ha⟩, hb]
  simp only []
  rw [if_neg hne]

/-- The body of `generate_tts` after the two guards, with the style fetch and
the retry loop already resolved. -/
lemma generate_tts_eq_of {C : Collab σ} {text voice : List Char} {speed : ℚ}
    {sty : Option σ} {out : LoopOut} {evs : List Ev}
    (h1 : pyStrip text ≠ []) (h2 : C.engineOk = true)
    (h3 : styleFetch C (voiceNameOf C.voices voice) = .ok sty)
    (hr : synthAttempts C sty (nativeSpeedOf speed) (List.range max_retries) (C.nfc text) =
      (out, evs)) :
    generate_tts C text voice speed = afterLoop C speed (out, evs) := by
  unfold generate_tts
  rw [if_neg (blank_guard_false h1), if_neg (by simp [h2]), h3]
  simp only []
  rw [hr]

/-- The body of `generate_tts` when the style fetch raises on both tries. -/
lemma generate_tts_styleAbort {C : Collab σ} {text voice msg : List Char} {speed : ℚ}
    (h1 : pyStrip text ≠ []) (h2 : C.engineOk = true)
    (h3 : styleFetch C (voiceNameOf C.voices voice) = .error msg) :
    generate_tts C text voice speed = (genFail msg, [.engineInit]) := by
  unfold generate_tts
  rw [if_neg (blank_guard_false h1), if_neg (by simp [h2]), h3]

lemma nativeSpeedOf_of_outRange {speed : ℚ} (h : speed < 0.7 ∨ speed > 2.0) :
    nativeSpeedOf speed = 1.0 := if_pos h

lemma nativeSpeedOf_of_inRange {speed : ℚ} (h : 0.7 ≤ speed ∧ speed ≤ 2.0) :
    nativeSpeedOf speed = speed := by
  unfold nativeSpeedOf
  rw [if_neg (by push_neg; exact ⟨h.1, h.2⟩)]

lemma useFfmpegFor_of_outRange {speed : ℚ} (h : speed < 0.7 ∨ speed > 2.0) :
    useFfmpegFor speed = true := by
  simp [useFfmpegFor, h]

lemma useFfmpegFor_of_inRange {speed : ℚ} (h : 0.7 ≤ speed ∧ speed ≤ 2.0) :
    useFfmpegFor speed = false := by
  simp only [useFfmpegFor, decide_eq_false_iff_not]
  push_neg
  exact ⟨h.1, h.2⟩

/-- Deleting occurrences of a pattern only keeps characters of the text. -/
lemma mem_of_mem_delOccAux {pat : List Char} {x : Char} :
    ∀ (s : List Char) (k : Nat), x ∈ delOccAux pat s k → x ∈ s := by
  intro s
  induction s with
  | nil =>
    intro k hx
    simp only [delOccAux] at hx
    exact absurd hx (List.not_mem_nil x)
  | cons c rest ih =>
    intro k hx
    cases k with
    | succ k =>
      simp only [delOccAux] at hx
      exact List.mem_cons_of_mem _ (ih k hx)
    | zero =>
      simp only [delOccAux] at hx
      split at hx
      · exact List.mem_cons_of_mem _ (ih _ hx)
      · rcases List.mem_cons.mp hx with hc | hc
        · exact List.mem_cons.mpr (Or.inl hc)
        · exact List.mem_cons_of_mem _ (ih 0 hc)

/-- Deleting occurrences of a pattern only keeps characters of the text. -/
lemma mem_of_mem_delOcc {pat s : List Char} {x : Char} (hx : x ∈ delOcc pat s) :
    x ∈ s := mem_of_mem_delOccAux s 0 hx

/-- Deleting occurrences of a single character removes every occurrence. -/
lemma not_mem_delOcc_single (c : Char) :
    ∀ s : List Char, c ∉ delOcc [c] s := by
  intro s
  show c ∉ delOccAux [c] s 0
  induction s with
  | nil => simp [delOccAux]
  | cons d rest ih =>
    simp only [delOccAux]
    split
    · simpa using ih
    · rename_i hcond
      intro hx
      rcases List.mem_cons.mp hx with hc | hc
      · apply hcond
        refine ⟨by simp, ?_⟩
        simp [hasPrefixL, hc]
      · exact ih hc

lemma removeBadChars_nil (text : List Char) : removeBadChars [] text = text := rfl

lemma removeBadChars_cons (p : List Char) (bad : List (List Char)) (text : List Char) :
    removeBadChars (p :: bad) text = removeBadChars bad (delOcc p text) := rfl

/-- Character absence is preserved by further deletions. -/
lemma not_mem_removeBadChars_of_not_mem {c : Char} :
    ∀ (bad : List (List Char)) (text : List Char),
      c ∉ text → c ∉ removeBadChars bad text := by
  intro bad
  induction bad with
  | nil => intro text h; simpa [removeBadChars_nil] using h
  | cons p rest ih =>
    intro text h
    rw [removeBadChars_cons]
    exact ih _ (fun hx => h (mem_of_mem_delOcc hx))

/-- Every reported single character is absent from the stripped text. -/
lemma not_mem_removeBadChars {c : Char} :
    ∀ (bad : List (List Char)) (text : List Char),
      [c] ∈ bad → c ∉ removeBadChars bad text := by
  intro bad
  induction bad with
  | nil => intro text h; exact absurd h (List.not_mem_nil _)
  | cons p rest ih =>
    intro text h
    rcases List.mem_cons.mp h with hp | hp
    · rw [removeBadChars_cons, ← hp]
      exact not_mem_removeBadChars_of_not_mem rest _ (not_mem_delOcc_single c text)
    · rw [removeBadChars_cons]
      exact ih _ hp

lemma synthCallCount_nil : synthCallCount [] = 0 := rfl

lemma synthCallCount_cons_engineInit (evs : List Ev) :
    synthCallCount (.engineInit :: evs) = synthCallCount evs := rfl

lemma synthCallCount_cons_ffmpeg (s : ℚ) (evs : List Ev) :
    synthCallCount (.ffmpegCall s :: evs) = synthCallCount evs := rfl

lemma synthCallCount_cons_synth (t : List Char) (s : ℚ) (evs : List Ev) :
    synthCallCount (.synthCall t s :: evs) = synthCallCount evs + 1 := rfl

lemma synthCallCount_append (l1 l2 : List Ev) :
    synthCallCount (l1 ++ l2) = synthCallCount l1 + synthCallCount l2 := by
  simp [synthCallCount, List.filter_append]

/-- The retry loop makes at most one `synthesize` call per attempt index. -/
lemma synthAttempts_calls_le (C : Collab σ) (style : Option σ) (ns : ℚ) :
    ∀ (attempts : List Nat) (text : List Char),
      synthCallCount (synthAttempts C style ns attempts text).2 ≤ attempts.length := by
  intro attempts
  induction attempts with
  | nil => intro text; simp [synthAttempts, synthCallCount_nil]
  | cons a rest ih =>
    intro text
    simp only [synthAttempts]
    split
    · simp [synthCallCount, isSynthEv]
    · simp [synthCallCount, isSynthEv]
    · split
      · split
        · split
          · simp [synthCallCount, isSynthEv]
          · simp only []
            rw [synthCallCount_cons_synth]
            exact Nat.succ_le_succ (ih _)
        · simp [synthCallCount, isSynthEv]
      · simp [synthCallCount, isSynthEv]

/-- `afterLoop` adds no `synthesize` call to the trace. -/
lemma synthCallCount_afterLoop (C : Collab σ) (speed : ℚ) (pr : LoopOut × List Ev) :
    synthCallCount (afterLoop C speed pr).2 = synthCallCount pr.2 := by
  rcases pr with ⟨out, evs⟩
  cases out with
  | raised msg => simp [afterLoop, synthCallCount_cons_engineInit]
  | fellThrough => simp [afterLoop, synthCallCount_cons_engineInit]
  | got d t =>
    simp only [afterLoop]
    cases C.saveErr with
    | some msg => simp [synthCallCount_cons_engineInit]
    | none =>
      simp only []
      split
      · cases C.ffmpeg <;>
          simp [synthCallCount_cons_engineInit, synthCallCount_append,
            synthCallCount_cons_ffmpeg, synthCallCount_nil]
      · simp [synthCallCount_cons_engineInit]

/-! ### Claim theorems -/

/-- C9: for every input text that is empty or whitespace-only (its Python
strip is empty), generate_tts returns the empty-input error payload
immediately, with an empty trace: no engine initialization and no synthesis
attempt is made. -/
theorem c9_blank_input_rejected {σ : Type} (C : Collab σ) (text voice : List Char)
    (speed : ℚ) (h : pyStrip text = []) :
    generate_tts C text voice speed = (.error emptyInputMsg, []) := by
  unfold generate_tts
  rw [if_pos (Or.inr h)]

/-- C9 witness: a whitespace-only text at concrete collaborators. -/
theorem c9_witness :
    pyStrip "  ".toList = [] ∧
    generate_tts collabFfmpegOk "  ".toList "default".toList 1 =
      (.error emptyInputMsg, []) :=
  ⟨by decide, c9_blank_input_rejected collabFfmpegOk "  ".toList "default".toList 1 (by decide)⟩

/-- C8: engine initialization is lazy and happens at most once: when the
handle is already set, _get_engine returns it and leaves the whole state —
including the voices list — unchanged, and running _get_engine twice has the
same effect as running it once. -/
theorem c8_getEngine_idempotent {α : Type} (initRes : Option (α × List (List Char)))
    (st : EngineState α) :
    (∀ e, st.tts = some e → getEngine initRes st = (some e, st)) ∧
    getEngine initRes (getEngine initRes st).2 = getEngine initRes st := by
  constructor
  · intro e he
    unfold getEngine
    rw [he]
  · rcases st with ⟨tts, voices⟩
    cases tts with
    | some e => rfl
    | none =>
      cases initRes with
      | none => rfl
      | some p => rfl

/-- C8 witness: the handle-already-set equation at a concrete state, and the
idempotence equation at a concrete state that needs initialization. -/
theorem c8_witness :
    getEngine (α := Nat) none ⟨some 5, ["A".toList]⟩ = (some 5, ⟨some 5, ["A".toList]⟩) ∧
    getEngine (α := Nat) (some (7, [])) (getEngine (some (7, [])) ⟨none, []⟩).2 =
      getEngine (some (7, [])) ⟨none, []⟩ :=
  ⟨(c8_getEngine_idempotent none ⟨some 5, ["A".toList]⟩).1 5 rfl,
    (c8_getEngine_idempotent (some (7, [])) ⟨none, []⟩).2⟩

/-- C7: the modelled AJAX dispatch handles exactly the six sub-actions
generate, get_voices, get_status, get_model_config, get_file and log, and
every other sub value yields the unknown-sub-command error payload. The
source file itself does not even import (stray tokens at line 335 are a
Python syntax error); this theorem is about the dispatch as written. -/
theorem c7_dispatch_totality {ρ : Type} (E : AjaxEnv ρ) (sub : List Char)
    (h : sub ∉ ["generate".toList, "get_voices".toList, "get_status".toList,
      "get_model_config".toList, "get_file".toList, "log".toList]) :
    process_ajax E sub = .unknown ("Unknown sub-command: ".toList ++ sub) ∧
    process_ajax E "generate".toList = .branch E.hGenerate ∧
    process_ajax E "get_voices".toList = .branch E.hGetVoices ∧
    process_ajax E "get_status".toList = .branch E.hGetStatus ∧
    process_ajax E "get_model_config".toList = .branch E.hGetModelConfig ∧
    process_ajax E "get_file".toList = .branch E.hGetFile ∧
    process_ajax E "log".toList = .branch E.hLog := by
  refine ⟨?_, rfl, rfl, rfl, rfl, rfl, rfl⟩
  simp only [List.mem_cons, List.not_mem_nil, or_false, not_or] at h
  obtain ⟨h1, h2, h3, h4, h5, h6⟩ := h
  unfold process_ajax
  rw [if_neg h1, if_neg h2, if_neg h3, if_neg h4, if_neg h5, if_neg h6]

/-- C7 witness: an unknown sub-command and one handled sub-command, at a
concrete environment. -/
theorem c7_witness :
    process_ajax ajaxEnvNat "foo".toList =
      .unknown ("Unknown sub-command: ".toList ++ "foo".toList) ∧
    process_ajax ajaxEnvNat "log".toList = .branch ajaxEnvNat.hLog :=
  ⟨(c7_dispatch_totality ajaxEnvNat "foo".toList (by decide)).1,
    (c7_dispatch_totality ajaxEnvNat "foo".toList (by decide)).2.2.2.2.2.2⟩

/-- C6: for every collaborator behaviour and every input, generate_tts makes
at most max_retries = 3 synthesize calls, and — the model being a total
function — the run terminates in a payload that is either an error (the
surfaced failure) or a success. -/
theorem c6_retry_bounded {σ : Type} (C : Collab σ) (text voice : List Char) (speed : ℚ) :
    synthCallCount (generate_tts C text voice speed).2 ≤ max_retries ∧
    ((∃ m, (generate_tts C text voice speed).1 = .error m) ∨
      ∃ u d, (generate_tts C text voice speed).1 = .success u d) := by
  constructor
  · unfold generate_tts
    split
    · simp [synthCallCount, isSynthEv]
    · split
      · simp [synthCallCount, isSynthEv]
      · split
        · simp [synthCallCount, isSynthEv]
        · rename_i sty heq
          rw [synthCallCount_afterLoop]
          have hle := synthAttempts_calls_le C sty (nativeSpeedOf speed)
            (List.range max_retries) (C.nfc text)
          simpa using hle
  · cases hp : (generate_tts C text voice speed).1 with
    | error m => exact Or.inl ⟨m, rfl⟩
    | success u d => exact Or.inr ⟨u, d, rfl⟩

/-- C1 counterexample: with requested speed 3 (outside the native range) and
an ffmpeg invocation that fails, generate_tts returns the success payload
with the unprocessed duration — not an error payload as the claim states.
The trace shows ffmpeg was invoked. -/
theorem c1_counterexample :
    collabFfmpegFail.ffmpeg = FfmpegOut.fail "boom".toList ∧
    generate_tts collabFfmpegFail "hello".toList "default".toList 3 =
      (.success "/u".toList 2,
        [.engineInit, .synthCall "hello".toList 1.0, .ffmpegCall 3]) := by
  refine ⟨rfl, ?_⟩
  have hout : (3 : ℚ) < 0.7 ∨ (3 : ℚ) > 2.0 := by norm_num
  have h1 : pyStrip "hello".toList ≠ [] := by decide
  have h2 : collabFfmpegFail.engineOk = true := rfl
  have h3 : styleFetch collabFfmpegFail
      (voiceNameOf collabFfmpegFail.voices "default".toList) = .ok (some ()) := rfl
  have hsyn : collabFfmpegFail.synth (collabFfmpegFail.nfc "hello".toList) (some ())
      (nativeSpeedOf 3) = .ok 2 := rfl
  have hr : synthAttempts collabFfmpegFail (some ()) (nativeSpeedOf 3)
      (List.range max_retries) (collabFfmpegFail.nfc "hello".toList) =
      (.got 2 (collabFfmpegFail.nfc "hello".toList),
        [.synthCall (collabFfmpegFail.nfc "hello".toList) (nativeSpeedOf 3)]) := by
    rw [range_max_retries]
    exact synthAttempts_ok 0 [1, 2] hsyn
  rw [generate_tts_eq_of h1 h2 h3 hr]
  rw [nativeSpeedOf_of_outRange hout]
  simp [afterLoop, collabFfmpegFail, useFfmpegFor_of_outRange hout]

/-- C1 amended: for every generation request in which the ffmpeg
post-processing step fails, the failure is logged and swallowed:
generate_tts invokes ffmpeg (the call appears in the trace) but still
returns the success payload for the unprocessed audio, with the duration not
divided by the requested speed. -/
theorem c1_ffmpeg_failure_swallowed {σ : Type} (C : Collab σ) (sty : Option σ)
    (text voice msg : List Char) (speed d : ℚ)
    (h1 : pyStrip text ≠ []) (h2 : C.engineOk = true)
    (h3 : styleFetch C (voiceNameOf C.voices voice) = .ok sty)
    (h4 : C.synth = fun _ _ _ => SynthOut.ok d)
    (h5 : C.saveErr = none) (h6 : C.ffmpeg = .fail msg)
    (h7 : speed < 0.7 ∨ speed > 2.0) :
    generate_tts C text voice speed =
      (.success C.url d,
        [.engineInit, .synthCall (C.nfc text) 1.0, .ffmpegCall speed]) := by
  have hr : synthAttempts C sty (nativeSpeedOf speed) (List.range max_retries) (C.nfc text) =
      (.got d (C.nfc text), [.synthCall (C.nfc text) (nativeSpeedOf speed)]) := by
    rw [range_max_retries]
    exact synthAttempts_ok 0 [1, 2] (by rw [h4])
  rw [generate_tts_eq_of h1 h2 h3 hr]
  rw [nativeSpeedOf_of_outRange h7]
  simp [afterLoop, h5, h6, useFfmpegFor_of_outRange h7]

/-- C1 witness: the amended theorem at concrete collaborators. -/
theorem c1_witness :
    pyStrip "hi".toList ≠ [] ∧
    collabFfmpegFail.ffmpeg = FfmpegOut.fail "boom".toList ∧
    ((3 : ℚ) < 0.7 ∨ (3 : ℚ) > 2.0) ∧
    generate_tts collabFfmpegFail "hi".toList "default".toList 3 =
      (.success collabFfmpegFail.url 2,
        [.engineInit, .synthCall "hi".toList 1.0, .ffmpegCall 3]) :=
  ⟨by decide, rfl, by norm_num,
    c1_ffmpeg_failure_swallowed collabFfmpegFail (some ()) "hi".toList "default".toList
      "boom".toList 3 2 (by decide) rfl rfl rfl rfl rfl (by norm_num)⟩

/-- C2 counterexample: three successive rejections with three different
messages; the returned error payload carries the message of the third
(final) rejected attempt, not of the first one, contradicting the claim. -/
theorem c2_counterexample :
    generate_tts collabRetryChain "abc".toList "v".toList 1 =
      (genFail "unsupported character: [c]".toList,
        [.engineInit, .synthCall "abc".toList 1, .synthCall "bc".toList 1,
          .synthCall "c".toList 1]) ∧
    genFail "unsupported character: [c]".toList ≠
      genFail "unsupported character: [a]".toList := by
  constructor
  · have hns : nativeSpeedOf 1 = 1 := nativeSpeedOf_of_inRange ⟨by norm_num, by norm_num⟩
    have hsynC : collabRetryChain.synth "c".toList (some ()) 1 =
        .valueErr "unsupported character: [c]".toList := rfl
    have e3 : synthAttempts collabRetryChain (some ()) 1 [2] "c".toList =
        (.raised "unsupported character: [c]".toList, [.synthCall "c".toList 1]) :=
      synthAttempts_lastAttempt 2 [] hsynC (by decide)
    have hsynB : collabRetryChain.synth "bc".toList (some ()) 1 =
        .valueErr "unsupported character: [b]".toList := rfl
    have hbB : bracketScan "unsupported character: [b]".toList = some "b".toList := by decide
    have hneB : pyStrip (removeBadChars (badCharsOf "b".toList) "bc".toList) ≠ [] := by decide
    have e2 : synthAttempts collabRetryChain (some ()) 1 [1, 2] "bc".toList =
        (.raised "unsupported character: [c]".toList,
          [.synthCall "bc".toList 1, .synthCall "c".toList 1]) := by
      rw [synthAttempts_retry 1 [2] hsynB (by decide) (by decide) hbB hneB]
      rw [show removeBadChars (badCharsOf "b".toList) "bc".toList = "c".toList by decide]
      rw [e3]
    have hsynA : collabRetryChain.synth "abc".toList (some ()) 1 =
        .valueErr "unsupported character: [a]".toList := rfl
    have hbA : bracketScan "unsupported character: [a]".toList = some "a".toList := by decide
    have hneA : pyStrip (removeBadChars (badCharsOf "a".toList) "abc".toList) ≠ [] := by decide
    have e1 : synthAttempts collabRetryChain (some ()) 1 [0, 1, 2] "abc".toList =
        (.raised "unsupported character: [c]".toList,
          [.synthCall "abc".toList 1, .synthCall "bc".toList 1, .synthCall "c".toList 1]) := by
      rw [synthAttempts_retry 0 [1, 2] hsynA (by decide) (by decide) hbA hneA]
      rw [show removeBadChars (badCharsOf "a".toList) "abc".toList = "bc".toList by decide]
      rw [e2]
    have h1 : pyStrip "abc".toList ≠ [] := by decide
    have h2 : collabRetryChain.engineOk = true := rfl
    have h3 : styleFetch collabRetryChain
        (voiceNameOf collabRetryChain.voices "v".toList) = .ok (some ()) := rfl
    have hr : synthAttempts collabRetryChain (some ()) (nativeSpeedOf 1)
        (List.range max_retries) (collabRetryChain.nfc "abc".toList) =
        (.raised "unsupported character: [c]".toList,
          [.synthCall "abc".toList 1, .synthCall "bc".toList 1, .synthCall "c".toList 1]) := by
      rw [range_max_retries, hns]
      exact e1
    rw [generate_tts_eq_of h1 h2 h3 hr]
    rfl
  · decide

/-- C2 amended: when the retry budget is exhausted without a successful
synthesis, the error payload reports the failure raised by the final (third)
synthesis attempt — the loop re-raises the most recent error, not the
original one. -/
theorem c2_last_failure_surfaced {σ : Type} (C : Collab σ) (sty : Option σ)
    (text voice t1 t2 t3 m1 m2 m3 g1 g2 : List Char) (speed : ℚ)
    (h1 : pyStrip text ≠ []) (h2 : C.engineOk = true)
    (h3 : styleFetch C (voiceNameOf C.voices voice) = .ok sty)
    (ht1 : C.nfc text = t1)
    (hm1 : C.synth t1 sty (nativeSpeedOf speed) = .valueErr m1)
    (hu1 : isUnsupportedMsg m1 = true) (hb1 : bracketScan m1 = some g1)
    (ht2 : removeBadChars (badCharsOf g1) t1 = t2) (hne2 : pyStrip t2 ≠ [])
    (hm2 : C.synth t2 sty (nativeSpeedOf speed) = .valueErr m2)
    (hu2 : isUnsupportedMsg m2 = true) (hb2 : bracketScan m2 = some g2)
    (ht3 : removeBadChars (badCharsOf g2) t2 = t3) (hne3 : pyStrip t3 ≠ [])
    (hm3 : C.synth t3 sty (nativeSpeedOf speed) = .valueErr m3) :
    generate_tts C text voice speed =
      (genFail m3,
        [.engineInit, .synthCall t1 (nativeSpeedOf speed),
          .synthCall t2 (nativeSpeedOf speed), .synthCall t3 (nativeSpeedOf speed)]) := by
  have e3 : synthAttempts C sty (nativeSpeedOf speed) [2] t3 =
      (.raised m3, [.synthCall t3 (nativeSpeedOf speed)]) :=
    synthAttempts_lastAttempt 2 [] hm3 (by decide)
  have e2 : synthAttempts C sty (nativeSpeedOf speed) [1, 2] t2 =
      (.raised m3, [.synthCall t2 (nativeSpeedOf speed),
        .synthCall t3 (nativeSpeedOf speed)]) := by
    rw [synthAttempts_retry 1 [2] hm2 hu2 (by decide) hb2 (ht3.symm ▸ hne3), ht3, e3]
  have e1 : synthAttempts C sty (nativeSpeedOf speed) [0, 1, 2] t1 =
      (.raised m3, [.synthCall t1 (nativeSpeedOf speed),
        .synthCall t2 (nativeSpeedOf speed), .synthCall t3 (nativeSpeedOf speed)]) := by
    rw [synthAttempts_retry 0 [1, 2] hm1 hu1 (by decide) hb1 (ht2.symm ▸ hne2), ht2, e2]
  have hr : synthAttempts C sty (nativeSpeedOf speed) (List.range max_retries) (C.nfc text) =
      (.raised m3,
        [.synthCall t1 (nativeSpeedOf speed), .synthCall t2 (nativeSpeedOf speed),
          .synthCall t3 (nativeSpeedOf speed)]) := by
    rw [range_max_retries, ht1]
    exact e1
  rw [generate_tts_eq_of h1 h2 h3 hr]
  rfl

/-- C2 witness: the amended theorem at the concrete rejection chain. -/
theorem c2_witness :
    generate_tts collabRetryChain "abc".toList "v".toList 1 =
      (genFail "unsupported character: [c]".toList,
        [.engineInit, .synthCall "abc".toList (nativeSpeedOf 1),
          .synthCall "bc".toList (nativeSpeedOf 1),
          .synthCall "c".toList (nativeSpeedOf 1)]) :=
  c2_last_failure_surfaced collabRetryChain (some ()) "abc".toList "v".toList
    "abc".toList "bc".toList "c".toList
    "unsupported character: [a]".toList "unsupported character: [b]".toList
    "unsupported character: [c]".toList "a".toList "b".toList 1
    (by decide) rfl rfl rfl (by decide) (by decide) (by decide) (by decide) (by decide)
    (by decide) (by decide) (by decide) (by decide) (by decide) (by decide)

/-- C3: a synthesis attempt rejected by a ValueError signaling specific
unsupported characters, with retries remaining, removes every occurrence of
each reported character from the text and retries on the stripped text — in
particular every reported single character is absent from the retried text;
a ValueError not signaling unsupported characters is raised without retry,
as is any non-ValueError exception. -/
theorem c3_unsupported_strip_retry {σ : Type} (C : Collab σ) (style : Option σ)
    (ns : ℚ) (a : Nat) (rest : List Nat) (text m g : List Char) :
    (C.synth text style ns = .valueErr m → isUnsupportedMsg m = true →
      a < max_retries - 1 → bracketScan m = some g →
      pyStrip (removeBadChars (badCharsOf g) text) ≠ [] →
      (synthAttempts C style ns (a :: rest) text =
        ((synthAttempts C style ns rest (removeBadChars (badCharsOf g) text)).1,
          .synthCall text ns ::
            (synthAttempts C style ns rest (removeBadChars (badCharsOf g) text)).2) ∧
        ∀ c : Char, [c] ∈ badCharsOf g → c ∉ removeBadChars (badCharsOf g) text)) ∧
    (C.synth text style ns = .valueErr m → isUnsupportedMsg m = false →
      synthAttempts C style ns (a :: rest) text = (.raised m, [.synthCall text ns])) ∧
    (C.synth text style ns = .engineErr m →
      synthAttempts C style ns (a :: rest) text = (.raised m, [.synthCall text ns])) :=
  ⟨fun h hu ha hb hne =>
    ⟨synthAttempts_retry a rest h hu ha hb hne,
      fun _ hc => not_mem_removeBadChars (badCharsOf g) text hc⟩,
    fun h hu => synthAttempts_notUnsupported a rest h hu,
    fun h => synthAttempts_engineErr a rest h⟩

/-- C3 witness: the retry equation and the removal property at a concrete
rejection, and the two no-retry cases at concrete rejections. -/
theorem c3_witness :
    (synthAttempts collabRetryChain (some ()) 1 [0, 1, 2] "abc".toList =
        ((synthAttempts collabRetryChain (some ()) 1 [1, 2]
            (removeBadChars (badCharsOf "a".toList) "abc".toList)).1,
          .synthCall "abc".toList 1 ::
            (synthAttempts collabRetryChain (some ()) 1 [1, 2]
                (removeBadChars (badCharsOf "a".toList) "abc".toList)).2) ∧
      ∀ c : Char, [c] ∈ badCharsOf "a".toList →
        c ∉ removeBadChars (badCharsOf "a".toList) "abc".toList) ∧
    synthAttempts collabValueErrPlain (some ()) 1 [0, 1, 2] "hi".toList =
      (.raised "plain failure".toList, [.synthCall "hi".toList 1]) ∧
    synthAttempts collabEngineErr (some ()) 1 [0, 1, 2] "hi".toList =
      (.raised "engine crashed".toList, [.synthCall "hi".toList 1]) :=
  ⟨(c3_unsupported_strip_retry collabRetryChain (some ()) 1 0 [1, 2] "abc".toList
      "unsupported character: [a]".toList "a".toList).1 rfl (by decide) (by decide)
      (by decide) (by decide),
    (c3_unsupported_strip_retry collabValueErrPlain (some ()) 1 0 [1, 2] "hi".toList
      "plain failure".toList []).2.1 rfl (by decide),
    (c3_unsupported_strip_retry collabEngineErr (some ()) 1 0 [1, 2] "hi".toList
      "engine crashed".toList []).2.2 rfl⟩

/-- C4: when removing the reported unsupported characters leaves a text with
no non-whitespace character, generate_tts raises instead of retrying: it
returns the empty-after-strip error payload and the trace shows exactly one
synthesis attempt. -/
theorem c4_empty_after_strip {σ : Type} (C : Collab σ) (sty : Option σ)
    (text voice t1 m g : List Char) (speed : ℚ)
    (h1 : pyStrip text ≠ []) (h2 : C.engineOk = true)
    (h3 : styleFetch C (voiceNameOf C.voices voice) = .ok sty)
    (ht1 : C.nfc text = t1)
    (hm : C.synth t1 sty (nativeSpeedOf speed) = .valueErr m)
    (hu : isUnsupportedMsg m = true) (hb : bracketScan m = some g)
    (hempty : pyStrip (removeBadChars (badCharsOf g) t1) = []) :
    generate_tts C text voice speed =
      (genFail emptyAfterStripMsg, [.engineInit, .synthCall t1 (nativeSpeedOf speed)]) := by
  have hr : synthAttempts C sty (nativeSpeedOf speed) (List.range max_retries) (C.nfc text) =
      (.raised emptyAfterStripMsg, [.synthCall t1 (nativeSpeedOf speed)]) := by
    rw [range_max_retries, ht1]
    exact synthAttempts_emptyAfterStrip 0 [1, 2] hm hu (by decide) hb hempty
  rw [generate_tts_eq_of h1 h2 h3 hr]
  rfl

/-- C4 witness: a text both of whose characters are reported unsupported. -/
theorem c4_witness :
    generate_tts collabUnsupAll "ab".toList "v".toList 1 =
      (genFail emptyAfterStripMsg, [.engineInit, .synthCall "ab".toList (nativeSpeedOf 1)]) :=
  c4_empty_after_strip collabUnsupAll (some ()) "ab".toList "v".toList "ab".toList
    "unsupported character: [a,b]".toList "a,b".toList 1
    (by decide) rfl rfl rfl rfl (by decide) (by decide) (by decide)

/-- C5: a requested speed strictly outside the native range runs the engine
at native speed 1.0, invokes ffmpeg atempo at the requested speed and (when
it succeeds) divides the reported duration by the requested speed; a
requested speed within the range, boundaries included, runs the engine at
the requested speed and never invokes ffmpeg. -/
theorem c5_speed_range_branch {σ : Type} (C : Collab σ) (sty : Option σ)
    (text voice : List Char) (speed d : ℚ)
    (h1 : pyStrip text ≠ []) (h2 : C.engineOk = true)
    (h3 : styleFetch C (voiceNameOf C.voices voice) = .ok sty)
    (h4 : C.synth = fun _ _ _ => SynthOut.ok d)
    (h5 : C.saveErr = none) :
    (speed < 0.7 ∨ speed > 2.0 → C.ffmpeg = .ok →
      generate_tts C text voice speed =
        (.success C.url (d / speed),
          [.engineInit, .synthCall (C.nfc text) 1.0, .ffmpegCall speed])) ∧
    (0.7 ≤ speed ∧ speed ≤ 2.0 →
      generate_tts C text voice speed =
        (.success C.url d, [.engineInit, .synthCall (C.nfc text) speed])) := by
  have hr : synthAttempts C sty (nativeSpeedOf speed) (List.range max_retries) (C.nfc text) =
      (.got d (C.nfc text), [.synthCall (C.nfc text) (nativeSpeedOf speed)]) := by
    rw [range_max_retries]
    exact synthAttempts_ok 0 [1, 2] (by rw [h4])
  constructor
  · intro hout hff
    rw [generate_tts_eq_of h1 h2 h3 hr]
    rw [nativeSpeedOf_of_outRange hout]
    simp [afterLoop, h5, hff, useFfmpegFor_of_outRange hout]
  · intro hin
    rw [generate_tts_eq_of h1 h2 h3 hr]
    rw [nativeSpeedOf_of_inRange hin]
    simp [afterLoop, h5, useFfmpegFor_of_inRange hin]

/-- C5 witness: the out-of-range branch at speed 3 and the in-range branch
at the boundary speed 2.0. -/
theorem c5_witness :
    generate_tts collabFfmpegOk "hi".toList "default".toList 3 =
      (.success collabFfmpegOk.url (2 / 3),
        [.engineInit, .synthCall "hi".toList 1.0, .ffmpegCall 3]) ∧
    generate_tts collabFfmpegOk "hi".toList "default".toList 2 =
      (.success collabFfmpegOk.url 2, [.engineInit, .synthCall "hi".toList 2]) :=
  ⟨(c5_speed_range_branch collabFfmpegOk (some ()) "hi".toList "default".toList 3 2
      (by decide) rfl rfl rfl rfl).1 (by norm_num) rfl,
    (c5_speed_range_branch collabFfmpegOk (some ()) "hi".toList "default".toList 2 2
      (by decide) rfl rfl rfl rfl).2 (by norm_num)⟩

/-- C10: a requested voice that is not cached maps to the first cached voice
(or to the literal M1 when the voice list is empty); with a cached first
voice whose style resolves, generation succeeds end to end; and when the
voice list is empty and even the style fetch for M1 raises, the further
fallback style None is used and generation still succeeds instead of
aborting. -/
theorem c10_voice_fallback {σ : Type} (C : Collab σ) (text voice v0 e : List Char)
    (speed d : ℚ) (s : σ) :
    (voice ∉ C.voices → voiceNameOf C.voices voice = C.voices.head?.getD defaultVoiceM1) ∧
    (voice ∉ C.voices → C.voices.head? = some v0 → C.getStyle v0 = .ok s →
      pyStrip text ≠ [] → C.engineOk = true → C.synth = (fun _ _ _ => SynthOut.ok d) →
      C.saveErr = none → 0.7 ≤ speed ∧ speed ≤ 2.0 →
      generate_tts C text voice speed =
        (.success C.url d, [.engineInit, .synthCall (C.nfc text) speed])) ∧
    (C.voices = [] → C.getStyle defaultVoiceM1 = .error e →
      pyStrip text ≠ [] → C.engineOk = true → C.synth = (fun _ _ _ => SynthOut.ok d) →
      C.saveErr = none → 0.7 ≤ speed ∧ speed ≤ 2.0 →
      styleFetch C (voiceNameOf C.voices voice) = .ok none ∧
      generate_tts C text voice speed =
        (.success C.url d, [.engineInit, .synthCall (C.nfc text) speed])) := by
  refine ⟨?_, ?_, ?_⟩
  · intro hv
    unfold voiceNameOf
    rw [if_neg hv]
  · intro hv hh hs h1 h2 h4 h5 hin
    have hname : voiceNameOf C.voices voice = v0 := by
      unfold voiceNameOf
      rw [if_neg hv, hh]
      rfl
    have h3 : styleFetch C (voiceNameOf C.voices voice) = .ok (some s) := by
      rw [hname]
      unfold styleFetch
      rw [hs]
    have hr : synthAttempts C (some s) (nativeSpeedOf speed)
        (List.range max_retries) (C.nfc text) =
        (.got d (C.nfc text), [.synthCall (C.nfc text) (nativeSpeedOf speed)]) := by
      rw [range_max_retries]
      exact synthAttempts_ok 0 [1, 2] (by rw [h4])
    rw [generate_tts_eq_of h1 h2 h3 hr]
    rw [nativeSpeedOf_of_inRange hin]
    simp [afterLoop, h5, useFfmpegFor_of_inRange hin]
  · intro hv0 hM1 h1 h2 h4 h5 hin
    have hname : voiceNameOf C.voices voice = defaultVoiceM1 := by
      unfold voiceNameOf
      rw [hv0]
      rfl
    have h3 : styleFetch C (voiceNameOf C.voices voice) = .ok none := by
      rw [hname]
      unfold styleFetch
      rw [hM1, hv0]
      rfl
    refine ⟨h3, ?_⟩
    have hr : synthAttempts C none (nativeSpeedOf speed)
        (List.range max_retries) (C.nfc text) =
        (.got d (C.nfc text), [.synthCall (C.nfc text) (nativeSpeedOf speed)]) := by
      rw [range_max_retries]
      exact synthAttempts_ok 0 [1, 2] (by rw [h4])
    rw [generate_tts_eq_of h1 h2 h3 hr]
    rw [nativeSpeedOf_of_inRange hin]
    simp [afterLoop, h5, useFfmpegFor_of_inRange hin]

/-- C10 witness: the name fallback and the end-to-end success with an
unknown voice at a nonempty voice list, and the style-fetch-failure fallback
to None at an empty voice list. -/
theorem c10_witness :
    voiceNameOf collabVoicesA.voices "Z".toList =
      collabVoicesA.voices.head?.getD defaultVoiceM1 ∧
    generate_tts collabVoicesA "hi".toList "Z".toList 1 =
      (.success collabVoicesA.url 2, [.engineInit, .synthCall "hi".toList 1]) ∧
    (styleFetch collabNoVoices (voiceNameOf collabNoVoices.voices "Z".toList) = .ok none ∧
      generate_tts collabNoVoices "hi".toList "Z".toList 1 =
        (.success collabNoVoices.url 3, [.engineInit, .synthCall "hi".toList 1])) :=
  ⟨(c10_voice_fallback collabVoicesA "hi".toList "Z".toList "A".toList [] 1 2 ()).1
      (by decide),
    (c10_voice_fallback collabVoicesA "hi".toList "Z".toList "A".toList [] 1 2 ()).2.1
      (by decide) rfl rfl (by decide) rfl rfl rfl (by norm_num),
    (c10_voice_fallback collabNoVoices "hi".toList "Z".toList "A".toList
        "style missing".toList 1 3 ()).2.2 rfl rfl (by decide) rfl rfl rfl (by norm_num)⟩

end SupertonicTTS
